import Mathlib

/-
Shallow embedding of the prediction-to-schedule pipeline of
enhanced_dashboard.py (MassDOT Chelsea bridge dashboard):
the schedule generator (predict_lifts together with its helpers
get_weather and create_features) and the two notification renderers
(generate_x_text for the social post, generate_vms_text for the roadway
sign).

Modelling decisions, each justified against the source:
* Python floats are modelled as rationals (no claim concerns
  float-specific rounding); machine randomness (np.random.normal,
  np.random.choice) is modelled as an injected stream of values, one
  pair of draws per candidate slot, exactly the degrees of freedom the
  source consumes per slot.
* Python int(x) truncates toward zero, x % 60 on floats returns a value
  in [0, 60) (sign of the divisor), x // 60 floors, and % on ints with a
  positive divisor returns a value in [0, divisor): truncInt, wrapMinute,
  wrapHour below reproduce those semantics.
* predictions.sort(key=lambda x: x['hour'] * 60 + x['minute']) is a
  stable sort by that key.  A stable sort of a given list by a given key
  is a unique list, so the structural insertion sort
  List.insertionSort (which is stable) computes the same output.
* The source computes features = create_features(date, hour, minute)
  inside the candidate loop and never uses the result; the embedded
  predict_lifts therefore omits that dead call, while create_features is
  embedded separately.
* In predict_lifts the branch "if mlp_model and scaler" guards a try
  whose body is pure arithmetic on RNG draws and cannot raise, so the
  except-arm confidence 0.75 is unreachable; the embedded confidenceTier
  returns 0.87 when both collaborators are truthy and 0.70 otherwise.
-/

namespace ChelseaBridge

/-- Calendar date as consumed by the pipeline: month and day feed the
renderers, weekday and month feed create_features. -/
structure Date where
  month : ℕ
  day : ℕ
  weekday : ℕ
deriving DecidableEq

/-- Resolved ambient reading, the dict returned by get_weather:
keys temp_c, precip, wind. -/
structure Weather where
  temp_c : ℚ
  precip : ℚ
  wind : ℚ
deriving DecidableEq

/-- One parsed "daily" JSON object of the weather response.  For each key
the outer Option is presence of the key (none = a KeyError on access),
the inner Option is the value (none = JSON null, i.e. Python None). -/
structure Daily where
  temperature_2m_max : Option (Option ℚ)
  temperature_2m_min : Option (Option ℚ)
  precipitation_sum : Option (Option ℚ)
  wind_speed_10m_max : Option (Option ℚ)
deriving DecidableEq

/-- Truthiness of the two model collaborators consulted by
predict_lifts: mlp_model and scaler (loaded objects or None). -/
structure ModelAvail where
  mlp_model : Bool
  scaler : Bool
deriving DecidableEq

/-- One prediction dict appended by predict_lifts:
keys hour, minute, duration, confidence. -/
structure Pred where
  hour : ℤ
  minute : ℤ
  duration : ℚ
  confidence : ℚ
deriving DecidableEq

/-- Start time of an entry in minutes of day, the sort key
hour * 60 + minute used throughout predict_lifts. -/
def timeOf (p : Pred) : ℤ :=
  p.hour * 60 + p.minute

/-- Body of the try in get_weather after the HTTP fetch succeeded:
builds the weather dict from the daily object.  none models an exception
escaping to the except arm (KeyError on a missing temperature or
precipitation key, TypeError on a None temperature).  The wind entry is
data.get('wind_speed_10m_max', [5])[0] or 5, which cannot raise: a
missing key yields the default [5][0] = 5 and a falsy value (None or 0)
yields 5 via the or. -/
def parseWeather (d : Daily) : Option Weather :=
  match d.temperature_2m_max, d.temperature_2m_min, d.precipitation_sum with
  | some (some tmax), some (some tmin), some precipVal =>
    let precip : ℚ := precipVal.getD 0
    let wind : ℚ :=
      match d.wind_speed_10m_max with
      | none => 5
      | some none => 5
      | some (some w) => if w = 0 then 5 else w
    some { temp_c := (tmax + tmin) / 2, precip := precip, wind := wind }
  | _, _, _ => none

/-- get_weather: the whole fetch-and-parse runs inside one try; a failed
fetch (resp = none) or a failed parse falls back to the literal dict
with temp_c 18, precip 0, wind 4. -/
def get_weather (resp : Option Daily) : Weather :=
  match resp with
  | none => { temp_c := 18, precip := 0, wind := 4 }
  | some d =>
    match parseWeather d with
    | some w => w
    | none => { temp_c := 18, precip := 0, wind := 4 }

/-- Feature dict built by create_features.  Field names follow the
source's dict keys; the two keys containing slashes and spaces
(Direction_IN / OUT, Direction_IN/OUT, Direction_OUT/IN) are renamed
with underscores. -/
structure Features where
  Tide_at_start : ℚ
  Temp_C : ℚ
  Wind_ms : ℚ
  Precip_mm : ℚ
  Start_Hour : ℤ
  Start_Minute : ℤ
  DayOfWeek : ℕ
  Month : ℕ
  IsPeakHour : ℤ
  Temp_Wind_Interaction : ℚ
  Num_Vessels : ℕ
  Direction_IN_sp_OUT : ℤ
  Direction_IN_OUT : ℤ
  Direction_OUT : ℤ
  Direction_OUT_IN : ℤ
  Precip_Level_Light : ℤ
  Precip_Level_Moderate : ℤ
  Precip_Level_None : ℤ
deriving DecidableEq

/-- create_features.  The transcendental tide proxy
1.5 + 0.8 * sin(hour / 24 * 2 * pi) is modelled with an injected
function sinApprox standing for hour goes to sin(hour / 24 * 2 * pi);
the categorical vessel draw np.random.choice([1,2,3], p=[.6,.3,.1]) is
the injected value vessels.  Every other field copies the source
expression; weather is the dict produced by get_weather, so all three
keys are always present here. -/
def create_features (sinApprox : ℤ → ℚ) (vessels : ℕ) (weather : Weather)
    (date : Date) (hour minute : ℤ) : Features :=
  { Tide_at_start := 3 / 2 + 4 / 5 * sinApprox hour
    Temp_C := weather.temp_c
    Wind_ms := weather.wind
    Precip_mm := weather.precip
    Start_Hour := hour
    Start_Minute := minute
    DayOfWeek := date.weekday
    Month := date.month
    IsPeakHour := if (7 ≤ hour ∧ hour ≤ 10) ∨ (16 ≤ hour ∧ hour ≤ 19) then 1 else 0
    Temp_Wind_Interaction := weather.temp_c * weather.wind
    Num_Vessels := vessels
    Direction_IN_sp_OUT := 0
    Direction_IN_OUT := 0
    Direction_OUT := 1
    Direction_OUT_IN := 0
    Precip_Level_Light := if 0 < weather.precip ∧ weather.precip ≤ 1 / 2 then 1 else 0
    Precip_Level_Moderate := if 1 / 2 < weather.precip then 1 else 0
    Precip_Level_None := if weather.precip = 0 then 1 else 0 }

/-- Confidence tier of predict_lifts: 0.87 when mlp_model and scaler are
both truthy, 0.70 otherwise.  The source wraps the 0.87 arm in a try
whose except arm would assign 0.75, but the try body is arithmetic on
RNG draws and cannot raise, so 0.75 is dead. -/
def confidenceTier (avail : ModelAvail) : ℚ :=
  if avail.mlp_model && avail.scaler then 87 / 100 else 70 / 100

/-- Python int() applied to a real value: truncation toward zero. -/
def truncInt (q : ℚ) : ℤ :=
  if 0 ≤ q then q.floor else q.ceil

/-- pred_hour = int(start_time // 60) % 24: float floor division, exact
int conversion, then Python int modulo (nonnegative for the positive
divisor 24), which is Int.emod. -/
def wrapHour (t : ℚ) : ℤ :=
  (Rat.floor (t / 60)).emod 24

/-- pred_minute = int(start_time % 60): Python float modulo returns
t - 60 * floor(t / 60), a value in [0, 60), then int() truncates. -/
def wrapMinute (t : ℚ) : ℤ :=
  truncInt (t - 60 * Rat.floor (t / 60))

/-- Body of the candidate loop of predict_lifts for one (hour, minute)
slot, given the two RNG draws of that slot: start_time and duration with
additive noise, duration clamped to [10, 30], hour and minute wrapped,
and the candidate kept only if 6 <= pred_hour <= 22. -/
def mkCandidate (conf : ℚ) (slot : ℤ × ℤ) (ns nd : ℚ) : Option Pred :=
  let start_time : ℚ := (slot.1 : ℚ) * 60 + (slot.2 : ℚ) + ns
  let duration : ℚ := max 10 (min 30 (15 + nd))
  let pred_hour : ℤ := wrapHour start_time
  let pred_minute : ℤ := wrapMinute start_time
  if 6 ≤ pred_hour ∧ pred_hour ≤ 22 then
    some { hour := pred_hour, minute := pred_minute,
           duration := duration, confidence := conf }
  else none

/-- The fixed candidate grid of predict_lifts:
hours [7,8,9,10,11,14,15,16,17,18,19,20], minutes [0, 30], iterated
hour-major exactly as the two nested for loops do. -/
def slotGrid : List (ℤ × ℤ) :=
  [7, 8, 9, 10, 11, 14, 15, 16, 17, 18, 19, 20].flatMap fun h => [(h, 0), (h, 30)]

/-- The predictions list built by the candidate loop, before sorting.
noise i is the pair of Gaussian draws consumed by slot number i. -/
def rawCandidates (avail : ModelAvail) (noise : ℕ → ℚ × ℚ) : List Pred :=
  slotGrid.enum.filterMap fun iSlot =>
    mkCandidate (confidenceTier avail) iSlot.2 (noise iSlot.1).1 (noise iSlot.1).2

/-- predictions.sort(key=lambda x: x['hour'] * 60 + x['minute']):
a stable ascending sort by minutes of day; insertionSort is stable, and
a stable sort by a fixed key is unique, so this is the same list. -/
def sortedCandidates (avail : ModelAvail) (noise : ℕ → ℚ × ℚ) : List Pred :=
  List.insertionSort (fun a b => timeOf a ≤ timeOf b) (rawCandidates avail noise)

/-- The greedy spacing loop of predict_lifts: keep p when
time - last_time >= 45, updating last_time to the kept time;
the caller seeds last_time with -60. -/
def spacingFilter (last_time : ℤ) : List Pred → List Pred
  | [] => []
  | p :: ps =>
    if 45 ≤ timeOf p - last_time then p :: spacingFilter (timeOf p) ps
    else spacingFilter last_time ps

/-- predict_lifts(date): candidate loop, stable sort, greedy spacing
filter seeded with last_time = -60, then truncation to the first 6.
The date argument is threaded for signature fidelity; the only use the
source makes of it is the dead create_features call. -/
def predict_lifts (date : Date) (avail : ModelAvail) (noise : ℕ → ℚ × ℚ) : List Pred :=
  (spacingFilter (-60) (sortedCandidates avail noise)).take 6

/-- Python f-string field {n:02d}: zero-pad a nonnegative single digit,
otherwise plain decimal (the sign counts toward the width). -/
def pad2 (n : ℤ) : String :=
  if 0 ≤ n ∧ n < 10 then "0" ++ toString n else toString n

/-- The 12-hour conversion of generate_x_text: lowercase am/pm, no
leading zero on the hour, hour 0 rendered as 12:MMam. -/
def time12 (hour minute : ℤ) : String :=
  if hour = 0 then "12:" ++ pad2 minute ++ "am"
  else if hour < 12 then toString hour ++ ":" ++ pad2 minute ++ "am"
  else if hour = 12 then "12:" ++ pad2 minute ++ "pm"
  else toString (hour - 12) ++ ":" ++ pad2 minute ++ "pm"

/-- One per-entry line of generate_x_text: duration = int(pred
duration), then the range d-5 to d+5 when duration > 15 else the
literal 15. -/
def xLine (p : Pred) : String :=
  let duration : ℤ := truncInt p.duration
  let duration_range : String :=
    if 15 < duration then toString (duration - 5) ++ "-" ++ toString (duration + 5)
    else "15"
  time12 p.hour p.minute ++ " estimated duration " ++ duration_range ++ " min"

/-- generate_x_text(date, predictions): the no-lifts literal on an empty
list, otherwise the header line (with its trailing newline), the entry
lines and the trailer, joined with newlines. -/
def generate_x_text (date : Date) (predictions : List Pred) : String :=
  let date_str : String := toString date.month ++ "/" ++ toString date.day
  match predictions with
  | [] =>
    date_str ++ " Expected Bridge Lifts\n\nNo lifts expected today.\n\n* Subject to Change *"
  | _ =>
    String.intercalate "\n"
      ((date_str ++ " Expected Bridge Lifts\n")
        :: (predictions.map xLine ++ ["\n* Subject to Change *"]))

/-- The 12-hour conversion of generate_vms_text, preserved verbatim from
the source including its redundant inner conditionals: every branch
appends the PM suffix, also for morning hours and hour 0. -/
def vmsTime (hour minute : ℤ) : String :=
  if hour = 0 then
    (if minute ≠ 0 then "12:" ++ pad2 minute ++ " PM" else "12:00 PM")
  else if hour < 12 then
    (if hour ≠ 12 then toString hour ++ ":" ++ pad2 minute ++ " PM"
     else "12:" ++ pad2 minute ++ " PM")
  else if hour = 12 then "12:" ++ pad2 minute ++ " PM"
  else toString (hour - 12) ++ ":" ++ pad2 minute ++ " PM"

/-- generate_vms_text(predictions): the no-lifts literal on an empty
list; otherwise at most the first 3 entries are rendered, and the shape
depends only on how many time lines that produced. -/
def generate_vms_text (predictions : List Pred) : String :=
  match (predictions.take 3).map (fun p => vmsTime p.hour p.minute) with
  | [] => "CHELSEA BRIDGE\nNO LIFTS TODAY"
  | [t0] => "NEXT LIFT EXPECTED\n" ++ t0 ++ "\nSIGUIENTE LEVADIZO ESPERADO"
  | [t0, t1] => "NEXT LIFTS EXPECTED\n" ++ t0 ++ "\n" ++ t1
  | t0 :: t1 :: t2 :: _ => "NEXT LIFTS EXPECTED\n" ++ t0 ++ "\n" ++ t1 ++ "\n" ++ t2

/-- A concrete date used by closed witness statements. -/
def date0 : Date :=
  { month := 10, day := 12, weekday := 6 }

/-- Model availability with neither collaborator loaded. -/
def availNone : ModelAvail :=
  { mlp_model := false, scaler := false }

/-- The all-zero noise stream: every slot draws 0 for both Gaussians. -/
def noise0 : ℕ → ℚ × ℚ :=
  fun _ => ((0 : ℚ), (0 : ℚ))

/-- A daily weather object whose wind key is absent while all other
keys carry plain values. -/
def dailyWindMissing : Daily :=
  { temperature_2m_max := some (some 20)
    temperature_2m_min := some (some 16)
    precipitation_sum := some (some 0)
    wind_speed_10m_max := none }

/-- A daily weather object whose temperature_2m_max key is absent. -/
def dailyTempMissing : Daily :=
  { temperature_2m_max := none
    temperature_2m_min := some (some 16)
    precipitation_sum := some (some 2)
    wind_speed_10m_max := some (some 3) }

attribute [local semireducible] Rat.mul Rat.add Rat.inv Rat.sub

/-- Batteries' computable Rat.floor agrees with Mathlib's floor. -/
theorem ratFloor_eq (q : ℚ) : q.floor = ⌊q⌋ :=
  (Rat.floor_def' q).trans Rat.floor_def.symm

/-- truncInt is the floor on nonnegative arguments. -/
theorem truncInt_eq_floor {q : ℚ} (h : 0 ≤ q) : truncInt q = ⌊q⌋ := by
  rw [truncInt, if_pos h, ratFloor_eq]

/-- The Python float modulo underlying wrapMinute is nonnegative. -/
theorem wrapMinute_nonneg (t : ℚ) : 0 ≤ wrapMinute t := by
  have hle : ((⌊t / 60⌋ : ℚ)) ≤ t / 60 := Int.floor_le (t / 60)
  have h1 : (0 : ℚ) ≤ t - 60 * Rat.floor (t / 60) := by
    rw [ratFloor_eq]; linarith
  rw [wrapMinute, truncInt_eq_floor h1]
  exact Int.le_floor.mpr (by exact_mod_cast h1)

/-- The Python float modulo underlying wrapMinute stays below 60. -/
theorem wrapMinute_lt (t : ℚ) : wrapMinute t < 60 := by
  have hle : ((⌊t / 60⌋ : ℚ)) ≤ t / 60 := Int.floor_le (t / 60)
  have hlt : t / 60 < (⌊t / 60⌋ : ℚ) + 1 := Int.lt_floor_add_one (t / 60)
  have h1 : (0 : ℚ) ≤ t - 60 * Rat.floor (t / 60) := by
    rw [ratFloor_eq]; linarith
  have h2 : t - 60 * (Rat.floor (t / 60) : ℚ) < 60 := by
    rw [ratFloor_eq]; linarith
  rw [wrapMinute, truncInt_eq_floor h1]
  exact Int.floor_lt.mpr (by push_cast; linarith)

/-- Everything a successful mkCandidate guarantees about the entry it
returns: clamped duration, windowed hour, wrapped minute, and the
confidence copied from the tier. -/
theorem mkCandidate_some {conf : ℚ} {slot : ℤ × ℤ} {ns nd : ℚ} {p : Pred}
    (h : mkCandidate conf slot ns nd = some p) :
    10 ≤ p.duration ∧ p.duration ≤ 30 ∧ 6 ≤ p.hour ∧ p.hour ≤ 22 ∧
      0 ≤ p.minute ∧ p.minute < 60 ∧ p.confidence = conf := by
  simp only [mkCandidate] at h
  split at h
  case isTrue hcond =>
    cases h
    refine ⟨le_max_left _ _, max_le (by norm_num) (min_le_left _ _),
      hcond.1, hcond.2, wrapMinute_nonneg _, wrapMinute_lt _, rfl⟩
  case isFalse hcond =>
    cases h

/-- Membership in the raw candidate list carries the mkCandidate
guarantees, with the confidence tier of the current availability. -/
theorem mem_rawCandidates {avail : ModelAvail} {noise : ℕ → ℚ × ℚ} {p : Pred}
    (h : p ∈ rawCandidates avail noise) :
    10 ≤ p.duration ∧ p.duration ≤ 30 ∧ 6 ≤ p.hour ∧ p.hour ≤ 22 ∧
      0 ≤ p.minute ∧ p.minute < 60 ∧ p.confidence = confidenceTier avail := by
  rw [rawCandidates, List.mem_filterMap] at h
  obtain ⟨a, _, ha⟩ := h
  exact mkCandidate_some ha

/-- Sorting the candidates does not change membership. -/
theorem mem_sortedCandidates {avail : ModelAvail} {noise : ℕ → ℚ × ℚ} {p : Pred} :
    p ∈ sortedCandidates avail noise ↔ p ∈ rawCandidates avail noise := by
  rw [sortedCandidates]
  exact (List.perm_insertionSort _ _).mem_iff

/-- The spacing filter only ever keeps elements of its input. -/
theorem spacingFilter_subset {p : Pred} :
    ∀ (l : List Pred) (last : ℤ), p ∈ spacingFilter last l → p ∈ l := by
  intro l
  induction l with
  | nil => intro last h; simp [spacingFilter] at h
  | cons q qs ih =>
    intro last h
    rw [spacingFilter] at h
    split at h
    · rcases List.mem_cons.mp h with h1 | h2
      · exact h1 ▸ List.mem_cons_self q qs
      · exact List.mem_cons_of_mem _ (ih _ h2)
    · exact List.mem_cons_of_mem _ (ih _ h)

/-- The spacing filter keeps entries at least 45 minutes apart, and its
first kept entry is at least 45 minutes after the seed last_time. -/
theorem spacingFilter_chain :
    ∀ (l : List Pred) (last : ℤ),
      List.Chain' (fun a b => timeOf a + 45 ≤ timeOf b) (spacingFilter last l) ∧
        ∀ x ∈ (spacingFilter last l).head?, last + 45 ≤ timeOf x := by
  intro l
  induction l with
  | nil =>
    intro last
    constructor
    · simp [spacingFilter]
    · intro x hx; simp [spacingFilter] at hx
  | cons q qs ih =>
    intro last
    rw [spacingFilter]
    split
    case isTrue hk =>
      constructor
      · rw [List.chain'_cons']
        exact ⟨fun y hy => (ih (timeOf q)).2 y hy, (ih (timeOf q)).1⟩
      · intro x hx
        rw [List.head?_cons, Option.mem_some_iff] at hx
        subst hx
        omega
    case isFalse hk =>
      exact ih last

/-- Every returned schedule entry came out of the candidate loop. -/
theorem mem_predict_lifts {date : Date} {avail : ModelAvail}
    {noise : ℕ → ℚ × ℚ} {p : Pred}
    (h : p ∈ predict_lifts date avail noise) : p ∈ rawCandidates avail noise := by
  rw [predict_lifts] at h
  exact mem_sortedCandidates.mp (spacingFilter_subset _ _ (List.mem_of_mem_take h))

/-- Claim C1: for every date input (and every availability and noise
stream), predict_lifts returns at most 6 entries, consecutive returned
entries are at least 45 minutes apart in start time (minutes of day),
and in particular the start times are strictly increasing. -/
theorem c1_schedule_bounded_spaced (date : Date) (avail : ModelAvail)
    (noise : ℕ → ℚ × ℚ) :
    (predict_lifts date avail noise).length ≤ 6 ∧
      List.Chain' (fun a b => timeOf a + 45 ≤ timeOf b) (predict_lifts date avail noise) ∧
      List.Pairwise (fun a b => timeOf a < timeOf b) (predict_lifts date avail noise) := by
  have hchain := (spacingFilter_chain (sortedCandidates avail noise) (-60)).1
  refine ⟨?_, ?_, ?_⟩
  · rw [predict_lifts]
    exact List.length_take_le 6 _
  · rw [predict_lifts]
    exact hchain.take 6
  · have hlt : List.Chain' (fun a b : Pred => timeOf a < timeOf b)
        (predict_lifts date avail noise) := by
      rw [predict_lifts]
      exact (hchain.take 6).imp (fun a b hab => by omega)
    haveI : IsTrans Pred (fun a b => timeOf a < timeOf b) :=
      ⟨fun a b c h1 h2 => lt_trans h1 h2⟩
    exact List.chain'_iff_pairwise.mp hlt

/-- Claim C2: every entry returned by predict_lifts has its duration
clamped into [10, 30] and its hour inside the operational window
[6, 22]; and a candidate slot whose wrapped hour falls outside [6, 22]
produces no entry at all (the loop body yields none instead of raising
or appending). -/
theorem c2_entry_ranges :
    (∀ (date : Date) (avail : ModelAvail) (noise : ℕ → ℚ × ℚ),
      ∀ p ∈ predict_lifts date avail noise,
        10 ≤ p.duration ∧ p.duration ≤ 30 ∧ 6 ≤ p.hour ∧ p.hour ≤ 22) ∧
    (∀ (conf : ℚ) (slot : ℤ × ℤ) (ns nd : ℚ),
      ¬(6 ≤ wrapHour ((slot.1 : ℚ) * 60 + (slot.2 : ℚ) + ns) ∧
          wrapHour ((slot.1 : ℚ) * 60 + (slot.2 : ℚ) + ns) ≤ 22) →
      mkCandidate conf slot ns nd = none) := by
  constructor
  · intro date avail noise p hp
    obtain ⟨h1, h2, h3, h4, -, -, -⟩ := mem_rawCandidates (mem_predict_lifts hp)
    exact ⟨h1, h2, h3, h4⟩
  · intro conf slot ns nd hout
    simp only [mkCandidate]
    exact if_neg hout

/-- Witness for C2: with the all-zero noise stream the 7:00 slot
survives as the entry (7, 0, 15, 0.70) and satisfies the bounds, while
the 7:00 slot pushed 120 minutes early wraps to hour 5 and is dropped. -/
theorem c2_entry_ranges_witness :
    (10 ≤ (⟨7, 0, 15, 70 / 100⟩ : Pred).duration ∧
      (⟨7, 0, 15, 70 / 100⟩ : Pred).duration ≤ 30 ∧
      6 ≤ (⟨7, 0, 15, 70 / 100⟩ : Pred).hour ∧
      (⟨7, 0, 15, 70 / 100⟩ : Pred).hour ≤ 22) ∧
    mkCandidate (70 / 100) (7, 0) (-120) 0 = none :=
  ⟨c2_entry_ranges.1 date0 availNone noise0 ⟨7, 0, 15, 70 / 100⟩ (by decide),
   c2_entry_ranges.2 (70 / 100) (7, 0) (-120) 0 (by decide)⟩

/-- Claim C3: the spacing stage of predict_lifts is the greedy
minimum-gap rule: a candidate is kept exactly when its start time is at
least 45 minutes past the previously kept start time, the seed being
-60; with the seed -60 any first candidate with nonnegative start time
(all windowed candidates qualify) is kept, so on a non-empty sorted
candidate list predict_lifts returns the earliest candidate first. -/
theorem c3_greedy_spacing :
    (∀ (p : Pred) (ps : List Pred) (last : ℤ),
      spacingFilter last (p :: ps) =
        if 45 ≤ timeOf p - last then p :: spacingFilter (timeOf p) ps
        else spacingFilter last ps) ∧
    (∀ (p : Pred) (ps : List Pred), 0 ≤ timeOf p →
      spacingFilter (-60) (p :: ps) = p :: spacingFilter (timeOf p) ps) ∧
    (∀ (date : Date) (avail : ModelAvail) (noise : ℕ → ℚ × ℚ),
      sortedCandidates avail noise ≠ [] →
      (predict_lifts date avail noise).head? = (sortedCandidates avail noise).head?) := by
  refine ⟨fun p ps last => rfl, ?_, ?_⟩
  · intro p ps hp
    rw [spacingFilter, if_pos (by omega)]
  · intro date avail noise hne
    rcases hs : sortedCandidates avail noise with - | ⟨p, rest⟩
    · exact absurd hs hne
    · have hp : p ∈ rawCandidates avail noise :=
        mem_sortedCandidates.mp (hs ▸ List.mem_cons_self p rest)
      obtain ⟨-, -, h3, -, h5, -, -⟩ := mem_rawCandidates hp
      have ht : 0 ≤ timeOf p := by
        rw [timeOf]; omega
      rw [predict_lifts, hs, spacingFilter, if_pos (by omega), List.take_cons,
        List.head?_cons, List.head?_cons]
      norm_num

/-- Witness for C3: the greedy head rule at the concrete entry
(7, 0, 15, 0.70), and the earliest-candidate-kept consequence at the
all-zero noise stream. -/
theorem c3_greedy_spacing_witness :
    spacingFilter (-60) [(⟨7, 0, 15, 70 / 100⟩ : Pred)] =
      (⟨7, 0, 15, 70 / 100⟩ : Pred) ::
        spacingFilter (timeOf ⟨7, 0, 15, 70 / 100⟩) [] ∧
    (predict_lifts date0 availNone noise0).head? =
      (sortedCandidates availNone noise0).head? :=
  ⟨c3_greedy_spacing.2.1 ⟨7, 0, 15, 70 / 100⟩ [] (by decide),
   c3_greedy_spacing.2.2 date0 availNone noise0 (by decide)⟩

/-- Counterexample to claim C4 as stated: on a response whose wind
field is missing (all other fields plain values), get_weather
substitutes 5 for the wind, not the claimed fixed default 4. -/
theorem c4_weather_defaults_counterexample :
    dailyWindMissing.wind_speed_10m_max = none ∧
      (get_weather (some dailyWindMissing)).wind = 5 ∧ ¬((5 : ℚ) = 4) :=
  ⟨rfl, rfl, by decide⟩

/-- Claim C4 as amended: the fixed defaults (18, 0, 4) are substituted
exactly when the weather computation as a whole fails, which includes a
failed fetch, a missing or None temperature field, and a missing
precipitation field; inside a successful parse a None precipitation
value becomes 0 and a missing or None wind field becomes 5, not 4; and
no exception propagates out of the schedule generator or either
renderer for any input.  In the embedding every exceptional control
path is an Option: the last conjuncts state that every failing parse
lands on the default dict instead of escaping, and that get_weather,
predict_lifts and the two renderers return a plain value on every
input (their embeddings are total, the source bodies containing no
fallible operation outside the caught try). -/
theorem c4_weather_defaults :
    get_weather none = { temp_c := 18, precip := 0, wind := 4 } ∧
    (∀ d : Daily, d.temperature_2m_max = none →
      get_weather (some d) = { temp_c := 18, precip := 0, wind := 4 }) ∧
    (∀ d : Daily, d.temperature_2m_max = some none →
      get_weather (some d) = { temp_c := 18, precip := 0, wind := 4 }) ∧
    (∀ d : Daily, d.temperature_2m_min = none →
      get_weather (some d) = { temp_c := 18, precip := 0, wind := 4 }) ∧
    (∀ d : Daily, d.temperature_2m_min = some none →
      get_weather (some d) = { temp_c := 18, precip := 0, wind := 4 }) ∧
    (∀ d : Daily, d.precipitation_sum = none →
      get_weather (some d) = { temp_c := 18, precip := 0, wind := 4 }) ∧
    (∀ (d : Daily) (tmax tmin : ℚ) (pv : Option ℚ),
      d.temperature_2m_max = some (some tmax) →
      d.temperature_2m_min = some (some tmin) →
      d.precipitation_sum = some pv →
      d.wind_speed_10m_max = none ∨ d.wind_speed_10m_max = some none →
      get_weather (some d) =
        { temp_c := (tmax + tmin) / 2, precip := pv.getD 0, wind := 5 }) ∧
    (∀ d : Daily, parseWeather d = none →
      get_weather (some d) = { temp_c := 18, precip := 0, wind := 4 }) ∧
    (∀ resp : Option Daily, ∃ w : Weather, get_weather resp = w) ∧
    (∀ (date : Date) (avail : ModelAvail) (noise : ℕ → ℚ × ℚ),
      ∃ l : List Pred, predict_lifts date avail noise = l) ∧
    (∀ (date : Date) (ps : List Pred), ∃ s : String, generate_x_text date ps = s) ∧
    (∀ ps : List Pred, ∃ s : String, generate_vms_text ps = s) := by
  refine ⟨rfl, ?_, ?_, ?_, ?_, ?_, ?_, ?_,
    fun resp => ⟨_, rfl⟩, fun date avail noise => ⟨_, rfl⟩,
    fun date ps => ⟨_, rfl⟩, fun ps => ⟨_, rfl⟩⟩
  · rintro ⟨f1, f2, f3, f4⟩ h
    cases h
    rfl
  · rintro ⟨f1, f2, f3, f4⟩ h
    cases h
    rfl
  · rintro ⟨f1, f2, f3, f4⟩ h
    cases h
    rcases f1 with - | - | -  <;> rfl
  · rintro ⟨f1, f2, f3, f4⟩ h
    cases h
    rcases f1 with - | - | - <;> rfl
  · rintro ⟨f1, f2, f3, f4⟩ h
    cases h
    rcases f1 with - | - | - <;> rcases f2 with - | - | - <;> rfl
  · rintro ⟨f1, f2, f3, f4⟩ tmax tmin pv h1 h2 h3 h4
    cases h1
    cases h2
    cases h3
    rcases h4 with h4 | h4 <;> cases h4 <;> rcases pv with - | - <;> rfl
  · intro d h
    simp only [get_weather, h]

/-- Witness for C4 as amended: a response with the temperature key
absent falls back to (18, 0, 4) — both through the missing-key conjunct
and through the failing-parse conjunct — and a response with only the
wind key absent parses to ((20 + 16) / 2, 0, 5). -/
theorem c4_weather_defaults_witness :
    get_weather (some dailyTempMissing) = { temp_c := 18, precip := 0, wind := 4 } ∧
    get_weather (some dailyWindMissing) =
      { temp_c := ((20 : ℚ) + 16) / 2, precip := (some (0 : ℚ)).getD 0, wind := 5 } ∧
    get_weather (some dailyTempMissing) = { temp_c := 18, precip := 0, wind := 4 } :=
  ⟨c4_weather_defaults.2.1 dailyTempMissing rfl,
   c4_weather_defaults.2.2.2.2.2.2.1 dailyWindMissing 20 16 (some 0) rfl rfl rfl
     (Or.inl rfl),
   c4_weather_defaults.2.2.2.2.2.2.2.1 dailyTempMissing rfl⟩

/-- Claim C5: each social line is the 12-hour time (lowercase am/pm, no
leading zero, hour 0 as 12:MMam) followed by " estimated duration " and
the range d-5 to d+5 when the truncated duration exceeds 15, else the
literal 15; the entry (9, 30, 20) renders as
"9:30am estimated duration 15-25 min" and the entry (0, 0, 10) renders
with time token 12:00am and duration literal 15. -/
theorem c5_social_line_format :
    (∀ p : Pred, xLine p =
      time12 p.hour p.minute ++ " estimated duration " ++
        (if 15 < truncInt p.duration then
            toString (truncInt p.duration - 5) ++ "-" ++ toString (truncInt p.duration + 5)
          else "15") ++ " min") ∧
    (∀ m : ℤ, time12 0 m = "12:" ++ pad2 m ++ "am") ∧
    xLine ⟨9, 30, 20, 87 / 100⟩ = "9:30am estimated duration 15-25 min" ∧
    xLine ⟨0, 0, 10, 87 / 100⟩ = "12:00am estimated duration 15 min" ∧
    generate_x_text ⟨10, 12, 6⟩ [⟨9, 30, 20, 87 / 100⟩] =
      "10/12 Expected Bridge Lifts\n\n9:30am estimated duration 15-25 min\n\n* Subject to Change *" :=
  ⟨fun p => rfl, fun m => rfl, rfl, rfl, rfl⟩

/-- Claim C6: every time line the sign renderer produces carries the
" PM" suffix whatever the hour is; in particular the morning entry
9:30 renders as "9:30 PM" and midnight as "12:00 PM", and a one-entry
schedule at 9:30am puts "9:30 PM" on the sign. -/
theorem c6_vms_pm_suffix :
    (∀ h m : ℤ, ∃ s : String, vmsTime h m = s ++ " PM") ∧
    vmsTime 9 30 = "9:30 PM" ∧
    vmsTime 0 0 = "12:00 PM" ∧
    generate_vms_text [⟨9, 30, 20, 87 / 100⟩] =
      "NEXT LIFT EXPECTED\n9:30 PM\nSIGUIENTE LEVADIZO ESPERADO" := by
  refine ⟨?_, rfl, rfl, rfl⟩
  intro h m
  rw [vmsTime]
  by_cases h0 : h = 0
  · rw [if_pos h0]
    by_cases hm : m ≠ 0
    · exact ⟨"12:" ++ pad2 m, by rw [if_pos hm, String.append_assoc]⟩
    · exact ⟨"12:00", by rw [if_neg hm]; rfl⟩
  · rw [if_neg h0]
    by_cases hlt : h < 12
    · rw [if_pos hlt]
      by_cases h12 : h ≠ 12
      · exact ⟨toString h ++ ":" ++ pad2 m,
          by rw [if_pos h12, String.append_assoc, String.append_assoc]⟩
      · exact ⟨"12:" ++ pad2 m, by rw [if_neg h12, String.append_assoc]⟩
    · rw [if_neg hlt]
      by_cases h12 : h = 12
      · exact ⟨"12:" ++ pad2 m, by rw [if_pos h12, String.append_assoc]⟩
      · exact ⟨toString (h - 12) ++ ":" ++ pad2 m,
          by rw [if_neg h12, String.append_assoc, String.append_assoc]⟩

/-- Claim C7: the sign renderer reads at most the first 3 entries, and
the output shape depends only on that count: one entry gives the
singular header, its time line and the bilingual trailer; two entries
give the plural header and both time lines; three or more give the
plural header and exactly three time lines, newline-joined. -/
theorem c7_vms_structure :
    (∀ ps : List Pred, generate_vms_text ps = generate_vms_text (ps.take 3)) ∧
    (∀ p : Pred, generate_vms_text [p] =
      "NEXT LIFT EXPECTED\n" ++ vmsTime p.hour p.minute ++
        "\nSIGUIENTE LEVADIZO ESPERADO") ∧
    (∀ p q : Pred, generate_vms_text [p, q] =
      "NEXT LIFTS EXPECTED\n" ++ vmsTime p.hour p.minute ++ "\n" ++
        vmsTime q.hour q.minute) ∧
    (∀ (p q r : Pred) (rest : List Pred), generate_vms_text (p :: q :: r :: rest) =
      "NEXT LIFTS EXPECTED\n" ++ vmsTime p.hour p.minute ++ "\n" ++
        vmsTime q.hour q.minute ++ "\n" ++ vmsTime r.hour r.minute) := by
  refine ⟨?_, fun p => rfl, fun p q => rfl, fun p q r rest => rfl⟩
  intro ps
  rw [generate_vms_text, generate_vms_text, List.take_take, min_self]

/-- Claim C8: on an empty schedule the social renderer returns exactly
the no-lifts literal with month/day rendered without zero padding. -/
theorem c8_social_empty_literal :
    (∀ d : Date, generate_x_text d [] =
      toString d.month ++ "/" ++ toString d.day ++
        " Expected Bridge Lifts\n\nNo lifts expected today.\n\n* Subject to Change *") ∧
    generate_x_text ⟨3, 7, 0⟩ [] =
      "3/7 Expected Bridge Lifts\n\nNo lifts expected today.\n\n* Subject to Change *" :=
  ⟨fun d => rfl, rfl⟩

/-- Claim C9: on an empty schedule the sign renderer returns exactly
the two-line no-lifts literal. -/
theorem c9_vms_empty_literal :
    generate_vms_text [] = "CHELSEA BRIDGE\nNO LIFTS TODAY" :=
  rfl

/-- Claim C10: every returned entry carries the confidence of the
availability tier, that tier is one of 0.87, 0.75, 0.70, both
collaborators present select 0.87, neither present selects 0.70, and
all entries of a single call carry the same confidence. -/
theorem c10_confidence_tiers :
    (∀ (date : Date) (avail : ModelAvail) (noise : ℕ → ℚ × ℚ),
      ∀ p ∈ predict_lifts date avail noise, p.confidence = confidenceTier avail) ∧
    (∀ avail : ModelAvail,
      confidenceTier avail = 87 / 100 ∨ confidenceTier avail = 75 / 100 ∨
        confidenceTier avail = 70 / 100) ∧
    (∀ avail : ModelAvail, avail.mlp_model = true → avail.scaler = true →
      confidenceTier avail = 87 / 100) ∧
    (∀ avail : ModelAvail, avail.mlp_model = false → avail.scaler = false →
      confidenceTier avail = 70 / 100) ∧
    (∀ (date : Date) (avail : ModelAvail) (noise : ℕ → ℚ × ℚ),
      ∀ p ∈ predict_lifts date avail noise, ∀ q ∈ predict_lifts date avail noise,
        p.confidence = q.confidence) := by
  have hconf : ∀ (date : Date) (avail : ModelAvail) (noise : ℕ → ℚ × ℚ),
      ∀ p ∈ predict_lifts date avail noise, p.confidence = confidenceTier avail := by
    intro date avail noise p hp
    exact (mem_rawCandidates (mem_predict_lifts hp)).2.2.2.2.2.2
  refine ⟨hconf, ?_, ?_, ?_, ?_⟩
  · intro avail
    rw [confidenceTier]
    rcases h : avail.mlp_model && avail.scaler with - | -
    · right; right; rfl
    · left; rfl
  · intro avail h1 h2
    rw [confidenceTier, h1, h2]
    rfl
  · intro avail h1 h2
    rw [confidenceTier, h1, h2]
    rfl
  · intro date avail noise p hp q hq
    rw [hconf date avail noise p hp, hconf date avail noise q hq]

/-- Witness for C10 at the all-zero noise stream with no collaborators
loaded: the first two surviving entries both carry the 0.70 tier. -/
theorem c10_confidence_tiers_witness :
    (⟨7, 0, 15, 70 / 100⟩ : Pred).confidence = confidenceTier availNone ∧
    confidenceTier { mlp_model := true, scaler := true } = 87 / 100 ∧
    confidenceTier availNone = 70 / 100 ∧
    (⟨7, 0, 15, 70 / 100⟩ : Pred).confidence = (⟨8, 0, 15, 70 / 100⟩ : Pred).confidence :=
  ⟨c10_confidence_tiers.1 date0 availNone noise0 ⟨7, 0, 15, 70 / 100⟩ (by decide),
   c10_confidence_tiers.2.2.1 { mlp_model := true, scaler := true } rfl rfl,
   c10_confidence_tiers.2.2.2.1 availNone rfl rfl,
   c10_confidence_tiers.2.2.2.2 date0 availNone noise0
     ⟨7, 0, 15, 70 / 100⟩ (by decide) ⟨8, 0, 15, 70 / 100⟩ (by decide)⟩

end ChelseaBridge
